import Mathlib

/-!
Shallow embedding of the LSFTP repository (lsftp-core, lsftp-server,
lsftp-client) and verification of the frozen claims about it.

Conventions used throughout:
  * Rust `u8` bytes are modelled as `Nat`; big-endian integer decoding
    reduces each byte modulo 256, mirroring the `u8` value range.
  * Rust `Result<T, Error>` is modelled as `Except Error T`; Rust code
    paths that abort the process (integer-overflow panics in debug
    builds, slice-index panics in release builds) are modelled by the
    dedicated `Outcome.panicked` constructor where the distinction
    matters.
  * `Uuid` values are modelled as `Nat`; a `Uuid::new_v4()` call site is
    modelled by an explicit `freshId` parameter, since the generated
    value is an input of the computation, not derived from other inputs.
  * Calls into external cryptographic libraries (`ring`, `oqs`) are
    modelled by oracle records passed as parameters; the dispatch logic
    around those calls is translated verbatim from the source.
-/

namespace LSFTP

/-- Rust `u8` modelled as `Nat` (reduced mod 256 where it matters). -/
abbrev Byte := Nat

/-- `lsftp-core/src/error.rs` — the `Error` enum (all twelve variants,
each carrying its message `String`). -/
inductive Error where
  | Crypto (msg : String)
  | HardwareAuth (msg : String)
  | Protocol (msg : String)
  | Transport (msg : String)
  | Auth (msg : String)
  | File (msg : String)
  | Config (msg : String)
  | Audit (msg : String)
  | System (msg : String)
  | Timeout (msg : String)
  | InvalidInput (msg : String)
  | Internal (msg : String)
  deriving DecidableEq, Repr

/-- `lsftp-core/src/protocol.rs` — the `MessageType` enum (codes 0x01..0x07). -/
inductive MessageType where
  | Handshake
  | FileOpen
  | FileData
  | FileClose
  | Heartbeat
  | PolicyUpdate
  | EmergencyStop
  deriving DecidableEq, Repr

/-- `impl TryFrom<u8> for MessageType` (`protocol.rs` lines 30-45).
The source formats the offending byte in hexadecimal inside the error
message; here it is appended in decimal, which does not affect any
claim (all claims only inspect the error constructor). -/
def MessageType.tryFrom (value : Byte) : Except Error MessageType :=
  match value with
  | 1 => .ok .Handshake
  | 2 => .ok .FileOpen
  | 3 => .ok .FileData
  | 4 => .ok .FileClose
  | 5 => .ok .Heartbeat
  | 6 => .ok .PolicyUpdate
  | 7 => .ok .EmergencyStop
  | _ => .error (Error.Protocol ("Unknown message type: " ++ toString value))

/-- `protocol.rs` — the `Flags` bit-field structure. -/
structure Flags where
  eom : Bool
  compressed : Bool
  encrypted : Bool
  requires_ack : Bool
  high_priority : Bool
  deriving DecidableEq, Repr

/-- `impl From<u16> for Flags` (`protocol.rs` lines 74-84). -/
def Flags.fromU16 (value : Nat) : Flags :=
  { eom := (value &&& 0x01) != 0
    compressed := (value &&& 0x02) != 0
    encrypted := (value &&& 0x04) != 0
    requires_ack := (value &&& 0x08) != 0
    high_priority := (value &&& 0x10) != 0 }

/-- Big-endian byte-list decoding, mirroring `uN::from_be_bytes`;
each byte is reduced mod 256 as a `u8` would be. -/
def beBytesToNat (bytes : List Byte) : Nat :=
  bytes.foldl (fun acc b => acc * 256 + b % 256) 0

/-- `protocol.rs` — the `Frame` structure. -/
structure Frame where
  version : Byte
  message_type : MessageType
  flags : Flags
  length : Nat
  sequence : Nat
  timestamp : Nat
  payload : List Byte
  hmac : List Byte
  deriving DecidableEq, Repr

/-- `Frame::deserialize` (`protocol.rs` lines 163-203), with the `?` on
`MessageType::try_from` desugared into an explicit `match`.  The final
`try_into` on the HMAC slice cannot fail once the completeness check has
passed (the slice has exactly 32 bytes), so the `Invalid HMAC` arm of
the source is unreachable and the slice is taken directly.  Index reads
below position 24 are total (`getD`) but only reached once
`data.length ≥ 48`, so they agree with the source's slice indexing. -/
def Frame.deserialize (data : List Byte) : Except Error Frame :=
  if data.length < 48 then .error (Error.Protocol ("Frame too short"))
  else
    match MessageType.tryFrom (data.getD 1 0) with
    | .error e => .error e
    | .ok message_type =>
      let version := data.getD 0 0
      let flags := Flags.fromU16 (beBytesToNat [data.getD 2 0, data.getD 3 0])
      let length := beBytesToNat
        [data.getD 4 0, data.getD 5 0, data.getD 6 0, data.getD 7 0]
      let sequence := beBytesToNat
        [data.getD 8 0, data.getD 9 0, data.getD 10 0, data.getD 11 0,
         data.getD 12 0, data.getD 13 0, data.getD 14 0, data.getD 15 0]
      let timestamp := beBytesToNat
        [data.getD 16 0, data.getD 17 0, data.getD 18 0, data.getD 19 0,
         data.getD 20 0, data.getD 21 0, data.getD 22 0, data.getD 23 0]
      let payloadStart := 24
      let payloadEnd := payloadStart + length
      let hmacStart := payloadEnd
      if data.length < hmacStart + 32 then
        .error (Error.Protocol ("Frame incomplete"))
      else
        .ok { version := version
              message_type := message_type
              flags := flags
              length := length
              sequence := sequence
              timestamp := timestamp
              payload := (data.drop payloadStart).take length
              hmac := (data.drop hmacStart).take 32 }

lemma MessageType.tryFrom_error {v : Byte} {e : Error}
    (h : MessageType.tryFrom v = .error e) : ∃ s, e = Error.Protocol s := by
  unfold MessageType.tryFrom at h
  split at h <;> simp_all
  exact ⟨_, h.symm⟩

/-- C8: every input shorter than 56 bytes is rejected by
`Frame::deserialize` with a `Protocol` error (so in particular no such
input parses to `Ok`), whatever the header bytes contain.  Inputs
shorter than 48 bytes hit the explicit minimum-size check; inputs of
48..55 bytes hit either the unknown-message-type check or the
completeness check `data.len() < 24 + length + 32 `, whose right-hand
side is at least 56. -/
theorem frame_deserialize_short_is_protocol_error (data : List Byte)
    (h : data.length < 56) :
    ∃ s, Frame.deserialize data = .error (Error.Protocol s) := by
  unfold Frame.deserialize
  by_cases h48 : data.length < 48
  · exact ⟨"Frame too short", by simp [h48]⟩
  · rw [if_neg h48]
    cases htf : MessageType.tryFrom (data.getD 1 0) with
    | error e =>
      obtain ⟨s, rfl⟩ := MessageType.tryFrom_error htf
      exact ⟨s, by simp⟩
    | ok mt =>
      refine ⟨"Frame incomplete", ?_⟩
      simp
      omega

/-- Witness for C8 at a concrete 10-byte input. -/
theorem frame_deserialize_short_is_protocol_error_witness :
    (List.replicate 10 0).length < 56 ∧
      ∃ s, Frame.deserialize (List.replicate 10 0) = .error (Error.Protocol s) :=
  ⟨by decide, frame_deserialize_short_is_protocol_error _ (by decide)⟩

/-! ## Crypto suite (`lsftp-core/src/crypto.rs`) -/

/-- `crypto.rs` — the `KemAlgorithm` enum. -/
inductive KemAlgorithm where
  | EcdheP256
  | HybridEcdheP256MlKem768
  | MlKem768
  | MlKem1024
  deriving DecidableEq, Repr

/-- `crypto.rs` — the `SignatureAlgorithm` enum. -/
inductive SignatureAlgorithm where
  | Ed25519
  | HybridEd25519MlDsa65
  | MlDsa65
  | MlDsa87
  deriving DecidableEq, Repr

/-- `crypto.rs` — the `AeadAlgorithm` enum. -/
inductive AeadAlgorithm where
  | ChaCha20Poly1305
  | Aes256Gcm
  deriving DecidableEq, Repr

/-- `crypto.rs` — the `HashAlgorithm` enum. -/
inductive HashAlgorithm where
  | Blake3
  | Sha3256
  deriving DecidableEq, Repr

/-- `crypto.rs` — the `CryptoSuite` record. -/
structure CryptoSuite where
  kem : KemAlgorithm
  sigAlg : SignatureAlgorithm
  aead : AeadAlgorithm
  hashAlg : HashAlgorithm
  version : Nat
  deriving DecidableEq, Repr

/-- `impl Default for CryptoSuite` (`crypto.rs` lines 67-77): hybrid
everywhere. -/
def CryptoSuite.default : CryptoSuite :=
  { kem := .HybridEcdheP256MlKem768
    sigAlg := .HybridEd25519MlDsa65
    aead := .ChaCha20Poly1305
    hashAlg := .Blake3
    version := 1 }

/-- `crypto.rs` — the `KeyExchange` result record. -/
structure KeyExchange where
  shared_secret : List Byte
  public_key : List Byte
  algorithm : KemAlgorithm
  deriving DecidableEq, Repr

/-- Oracle record abstracting the external cryptographic libraries used
by the key-exchange paths: `ring` X25519 agreement (an ephemeral key
whose public half is `ecdhPub` and whose agreement with a peer key
either fails — `none`, mapped to a `Crypto` error by the
`From<ring::error::Unspecified>` impl — or yields a shared secret) and
the `oqs` KEM (keypair generation and encapsulation, each of which the
source maps to a `Crypto` error on failure).  Only the dispatch around
these calls is translated from the source; the calls themselves are
opaque. -/
structure KexEnv where
  ecdhPub : List Byte
  ecdhShared : List Byte → Option (List Byte)
  kemKeypair : Option (List Byte × List Byte)
  kemEncaps : List Byte → Option (List Byte × List Byte)

/-- `CryptoSuite::perform_classical_key_exchange` (`crypto.rs` lines
400-422). -/
def perform_classical_key_exchange (env : KexEnv) (peer_public_key : List Byte) :
    Except Error KeyExchange :=
  match env.ecdhShared peer_public_key with
  | none => .error (Error.Crypto ("Ring cryptographic error"))
  | some shared_secret =>
      .ok { shared_secret := shared_secret
            public_key := env.ecdhPub
            algorithm := .EcdheP256 }

/-- `CryptoSuite::perform_post_quantum_key_exchange` (`crypto.rs` lines
425-447).  The dispatch on `self.kem` is translated verbatim: only
`MlKem768` and `MlKem1024` select a KEM; every other algorithm — the
hybrid variant included — takes the `_` arm and fails.  Note that the
source encapsulates to the freshly generated *own* public key, which the
embedding reproduces. -/
def perform_post_quantum_key_exchange (suite : CryptoSuite) (env : KexEnv)
    (_peer_public_key : List Byte) : Except Error KeyExchange :=
  match suite.kem with
  | .MlKem768 | .MlKem1024 =>
      match env.kemKeypair with
      | none => .error (Error.Crypto ("Failed to generate keypair"))
      | some (public_key, _secret_key) =>
          match env.kemEncaps public_key with
          | none => .error (Error.Crypto ("Failed to encapsulate"))
          | some (_ciphertext, shared_secret) =>
              .ok { shared_secret := shared_secret
                    public_key := public_key
                    algorithm := suite.kem }
  | _ => .error (Error.Crypto ("Invalid algorithm for post-quantum key exchange"))

/-- `CryptoSuite::perform_key_exchange` (`crypto.rs` lines 178-230).
The `EcdheP256` arm inlines the same classical body as the helper; the
hybrid arm runs the classical helper, then the post-quantum helper, and
concatenates secrets and public keys. -/
def perform_key_exchange (suite : CryptoSuite) (env : KexEnv)
    (peer_public_key : List Byte) : Except Error KeyExchange :=
  match suite.kem with
  | .EcdheP256 =>
      match env.ecdhShared peer_public_key with
      | none => .error (Error.Crypto ("Ring cryptographic error"))
      | some shared_secret =>
          .ok { shared_secret := shared_secret
                public_key := env.ecdhPub
                algorithm := suite.kem }
  | .HybridEcdheP256MlKem768 =>
      match perform_classical_key_exchange env peer_public_key with
      | .error e => .error e
      | .ok classical_ke =>
          match perform_post_quantum_key_exchange suite env peer_public_key with
          | .error e => .error e
          | .ok pq_ke =>
              .ok { shared_secret := classical_ke.shared_secret ++ pq_ke.shared_secret
                    public_key := classical_ke.public_key ++ pq_ke.public_key
                    algorithm := suite.kem }
  | .MlKem768 => perform_post_quantum_key_exchange suite env peer_public_key
  | .MlKem1024 => perform_post_quantum_key_exchange suite env peer_public_key

/-- C2 (refuting the claim): under the default (hybrid) suite,
`perform_key_exchange` never returns `Ok` — for every oracle and every
peer public key it returns a `Crypto` error, because
`perform_post_quantum_key_exchange` dispatches on `self.kem` and its
`_` arm rejects the `HybridEcdheP256MlKem768` tag before any
encapsulation happens (and when the classical half fails first, that
failure is also a `Crypto` error). -/
theorem hybrid_key_exchange_always_crypto_error (env : KexEnv)
    (peer_public_key : List Byte) :
    ∃ s, perform_key_exchange CryptoSuite.default env peer_public_key =
      .error (Error.Crypto s) := by
  unfold perform_key_exchange CryptoSuite.default
  unfold perform_classical_key_exchange perform_post_quantum_key_exchange
  cases h : env.ecdhShared peer_public_key with
  | none => exact ⟨"Ring cryptographic error", by simp [h]⟩
  | some ss =>
      exact ⟨"Invalid algorithm for post-quantum key exchange", by simp [h]⟩

/-! ## Signature verification (`lsftp-core/src/crypto.rs`) -/

/-- Result type for Rust code that can return, fail, or abort the
process: `panicked` models paths on which the program panics (integer
underflow of `usize` subtraction in debug builds; out-of-bounds slice
indexing in release builds — for the inputs in question both build
modes abort). -/
inductive Outcome (α : Type) where
  | ok (a : α)
  | err (e : Error)
  | panicked
  deriving DecidableEq, Repr

/-- Oracle record abstracting the external signature libraries:
`ring` Ed25519 verification (an infallible boolean) and `oqs`
ML-DSA verification, whose key/signature parsing can fail (`none`,
mapped to a `Crypto` error by the source). -/
structure SigEnv where
  classicalOk : List Byte → List Byte → List Byte → Bool
  pqOk : SignatureAlgorithm → List Byte → List Byte → List Byte → Option Bool

/-- `CryptoSuite::verify_classical_signature` (`crypto.rs` lines
489-495): `ring`'s verification, wrapped in `Ok`. -/
def verify_classical_signature (env : SigEnv)
    (message sig public_key : List Byte) : Except Error Bool :=
  .ok (env.classicalOk message sig public_key)

/-- `CryptoSuite::verify_post_quantum_signature` (`crypto.rs` lines
498-514).  The dispatch on `self.signature` is translated verbatim:
only `MlDsa65` and `MlDsa87` select a scheme; every other algorithm —
the hybrid variant included — takes the `_` arm and fails. -/
def verify_post_quantum_signature (suite : CryptoSuite) (env : SigEnv)
    (message sig public_key : List Byte) : Except Error Bool :=
  match suite.sigAlg with
  | .MlDsa65 | .MlDsa87 =>
      match env.pqOk suite.sigAlg message sig public_key with
      | none => .error (Error.Crypto ("Failed to parse signature material"))
      | some b => .ok b
  | _ => .error (Error.Crypto ("Invalid algorithm for post-quantum signature verification"))

/-- `CryptoSuite::verify` (`crypto.rs` lines 275-318).  In the hybrid
arm the source computes `pq_sig_len = signature.len() - classical_sig_len`
with `usize` subtraction and then slices `&signature[..64]`: when the
blob is shorter than 64 bytes the subtraction underflows (debug panic)
and the slice is out of bounds (release panic), modelled as `panicked`;
the subsequent guard `signature.len() < classical_sig_len + pq_sig_len`
compares `len < 64 + (len - 64) = len` and so can never fire.  The same
pattern applies to the public key at offset 32. -/
def CryptoSuite.verify (suite : CryptoSuite) (env : SigEnv)
    (message sig public_key : List Byte) : Outcome Bool :=
  match suite.sigAlg with
  | .Ed25519 => .ok (env.classicalOk message sig public_key)
  | .HybridEd25519MlDsa65 =>
      let classical_sig_len := 64
      if sig.length < classical_sig_len then .panicked
      else
        let pq_sig_len := sig.length - classical_sig_len
        if sig.length < classical_sig_len + pq_sig_len then
          .err (Error.Crypto ("Invalid hybrid signature length"))
        else
          let classical_sig := sig.take classical_sig_len
          let pq_sig := sig.drop classical_sig_len
          let classical_pubkey_len := 32
          if public_key.length < classical_pubkey_len then .panicked
          else
            let pq_pubkey_len := public_key.length - classical_pubkey_len
            if public_key.length < classical_pubkey_len + pq_pubkey_len then
              .err (Error.Crypto ("Invalid hybrid public key length"))
            else
              let classical_pubkey := public_key.take classical_pubkey_len
              let pq_pubkey := public_key.drop classical_pubkey_len
              match verify_classical_signature env message classical_sig classical_pubkey with
              | .error e => .err e
              | .ok classical_verified =>
                  match verify_post_quantum_signature suite env message pq_sig pq_pubkey with
                  | .error e => .err e
                  | .ok pq_verified => .ok (classical_verified && pq_verified)
  | .MlDsa65 | .MlDsa87 =>
      match verify_post_quantum_signature suite env message sig public_key with
      | .error e => .err e
      | .ok b => .ok b

/-- C4 (refuting the claim): under the default (hybrid) suite, for every
well-formed blob (signature of at least the 64 classical bytes, public
key of at least the 32 classical bytes) `verify` never produces a
boolean at all — it always returns the `Crypto` error raised by
`verify_post_quantum_signature`'s dispatch, which rejects the
`HybridEd25519MlDsa65` tag.  In particular a failing classical
component yields this error, not `false`. -/
theorem hybrid_verify_errors_on_wellformed_input (env : SigEnv)
    (message sig public_key : List Byte)
    (hs : 64 ≤ sig.length) (hp : 32 ≤ public_key.length) :
    CryptoSuite.verify CryptoSuite.default env message sig public_key =
      .err (Error.Crypto ("Invalid algorithm for post-quantum signature verification")) := by
  unfold CryptoSuite.verify CryptoSuite.default
  unfold verify_classical_signature verify_post_quantum_signature
  have h1 : ¬ sig.length < 64 := by omega
  have h2 : ¬ sig.length < 64 + (sig.length - 64) := by omega
  have h3 : ¬ public_key.length < 32 := by omega
  have h4 : ¬ public_key.length < 32 + (public_key.length - 32) := by omega
  simp [h1, h2, h3, h4]

/-- Witness for C4: the hybrid error is returned for a concrete
69-byte signature and 37-byte public key under an oracle whose
classical verification rejects. -/
theorem hybrid_verify_errors_on_wellformed_input_witness :
    64 ≤ (List.replicate 69 (0 : Byte)).length ∧
      32 ≤ (List.replicate 37 (0 : Byte)).length ∧
      CryptoSuite.verify CryptoSuite.default
          { classicalOk := fun _ _ _ => false, pqOk := fun _ _ _ _ => some true }
          [1, 2, 3] (List.replicate 69 0) (List.replicate 37 0) =
        .err (Error.Crypto ("Invalid algorithm for post-quantum signature verification")) :=
  ⟨by decide, by decide,
    hybrid_verify_errors_on_wellformed_input _ _ _ _ (by decide) (by decide)⟩

/-- C5 (refuting the claim): under the default (hybrid) suite a
signature blob shorter than the 64-byte classical component makes
`verify` panic (usize underflow in debug builds, out-of-bounds slice in
release builds) instead of returning a `Crypto` error: the length guard
in the source compares `len < 64 + (len - 64)` and can never fire. -/
theorem hybrid_verify_short_blob_panics (env : SigEnv)
    (message public_key sig : List Byte) (h : sig.length < 64) :
    CryptoSuite.verify CryptoSuite.default env message sig public_key = .panicked := by
  unfold CryptoSuite.verify CryptoSuite.default
  simp [h]

/-- Witness for C5 at a concrete 10-byte blob. -/
theorem hybrid_verify_short_blob_panics_witness :
    (List.replicate 10 (0 : Byte)).length < 64 ∧
      CryptoSuite.verify CryptoSuite.default
          { classicalOk := fun _ _ _ => true, pqOk := fun _ _ _ _ => some true }
          [1, 2, 3] (List.replicate 10 0) (List.replicate 32 0) = .panicked :=
  ⟨by decide, hybrid_verify_short_blob_panics _ _ _ _ (by decide)⟩

/-! ## Audit logger (`lsftp-core/src/audit.rs`) -/

/-- `audit.rs` — the `Severity` enum. -/
inductive Severity where
  | Debug
  | Info
  | Warning
  | Error
  | Critical
  deriving DecidableEq, Repr

/-- `audit.rs` — the `AuditAction` enum. -/
inductive AuditAction where
  | Authentication
  | FileUpload
  | FileDownload
  | FileDelete
  | PolicyChange
  | SessionStart
  | SessionEnd
  | ConfigChange
  | SecurityEvent
  | SystemEvent
  deriving DecidableEq, Repr

/-- `audit.rs` — the `AuditResult` enum. -/
inductive AuditResult where
  | Success
  | Failure
  | Denied
  | InProgress
  deriving DecidableEq, Repr

/-- `audit.rs` — the `AuditEvent` record (timestamps as seconds, UUIDs
as `Nat`, the metadata map as an association list). -/
structure AuditEvent where
  timestamp : Nat
  event_id : Nat
  user_id : Option String
  hardware_id : Option String
  action : AuditAction
  file_path : Option String
  file_hash : Option (List Byte)
  source_ip : Option String
  session_id : Option Nat
  bytes_transferred : Option Nat
  duration_ms : Option Nat
  result : AuditResult
  error_code : Option String
  metadata : List (String × String)
  sigBytes : Option (List Byte)
  deriving DecidableEq, Repr

/-- `AuditLogger::get_severity` (`audit.rs` lines 312-331). -/
def get_severity (event : AuditEvent) : Severity :=
  match event.result with
  | .Success =>
      match event.action with
      | .SecurityEvent => .Warning
      | .Authentication => .Info
      | _ => .Debug
  | .Failure =>
      match event.action with
      | .SecurityEvent => .Critical
      | .Authentication => .Error
      | _ => .Warning
  | .Denied => .Warning
  | .InProgress => .Info

/-- `audit.rs` — the `AuditConfig` record (the fields `log_event`
consults; the remaining fields configure the stubbed sinks). -/
structure AuditConfig where
  log_level : Severity
  log_destinations : List String
  syslog_server : Option String
  audit_log_path : String
  audit_log_signing : Bool
  deriving DecidableEq, Repr

/-- The observable writes `AuditLogger::log_event` performs, one
constructor per destination arm plus the SIEM push.  The JSON rendering
done by `create_log_entry` is value-preserving, so each write carries
the event itself. -/
inductive AuditWrite where
  | stdout (e : AuditEvent)
  | auditFile (e : AuditEvent)
  | syslog (e : AuditEvent)
  | unknownDest (name : String)
  | siemPush (e : AuditEvent)
  deriving DecidableEq, Repr

/-- `AuditLogger::log_event` (`audit.rs` lines 248-276): iterate the
configured destinations (the `write_to_audit_file`, `send_to_syslog`
and `push_to_siem` sinks all return `Ok` in the source, so no arm can
fail), then push to the SIEM sink exactly when the event's result is
`Failure` or its action is `SecurityEvent`. -/
def log_event (config : AuditConfig) (event : AuditEvent) : List AuditWrite :=
  (config.log_destinations.map fun destination =>
    match destination with
    | "stdout" => AuditWrite.stdout event
    | "audit_file" => AuditWrite.auditFile event
    | "syslog" => AuditWrite.syslog event
    | other => AuditWrite.unknownDest other)
  ++ (if event.result = .Failure ∨ event.action = .SecurityEvent then
        [AuditWrite.siemPush event]
      else [])

/-- C9: an event is pushed to the SIEM sink iff its result is `Failure`
or its action is `SecurityEvent`, for every logger configuration. -/
theorem log_event_siem_push_iff (config : AuditConfig) (event : AuditEvent) :
    AuditWrite.siemPush event ∈ log_event config event ↔
      (event.result = .Failure ∨ event.action = .SecurityEvent) := by
  unfold log_event
  constructor
  · intro hmem
    rcases List.mem_append.mp hmem with hmap | hcond
    · exfalso
      rcases List.mem_map.mp hmap with ⟨d, _, hd⟩
      revert hd
      split <;> simp
    · by_cases hc : event.result = .Failure ∨ event.action = .SecurityEvent
      · exact hc
      · simp [hc] at hcond
  · intro hc
    exact List.mem_append.mpr (Or.inr (by simp [hc]))

/-! ## Server file handlers (`lsftp-server/src/main.rs`)

Paths are modelled as `std::path::Path` values: an absolute flag plus
the list of normal/`..` components (Rust's `Components` iterator).
`PathBuf::join` and `Path::starts_with` below follow the documented
`std` semantics the source relies on: `join` appends components unless
the argument is absolute, and `starts_with` is a *component-wise prefix
test that performs no `..` resolution*. -/

/-- A `std::path` value: absolute flag plus components (`..` kept, as
in Rust's `Components`). -/
structure RustPath where
  absolute : Bool
  components : List String
  deriving DecidableEq, Repr

/-- `PathBuf::join`: an absolute argument replaces the base, a relative
one is appended component-wise (no normalization). -/
def RustPath.join (base arg : RustPath) : RustPath :=
  if arg.absolute then arg
  else { absolute := base.absolute, components := base.components ++ arg.components }

/-- `Path::starts_with`: component-wise prefix test, with no `..`
resolution. -/
def RustPath.startsWith (p base : RustPath) : Bool :=
  (p.absolute == base.absolute) && base.components.isPrefixOf p.components

/-- `Path::parent`: drop the last component (none for an empty path). -/
def RustPath.parent (p : RustPath) : Option RustPath :=
  match p.components with
  | [] => none
  | _ => some { absolute := p.absolute, components := p.components.dropLast }

/-- Formalizes the specification's notion of the path *resolved* against
the filesystem (`..` components collapsed), used to state C1's premise
"the path resolved against the configured root lies outside that root".
The source itself performs no such resolution (and no symlink
canonicalization), which is exactly what C1 is about; in this model
there are no symlinks, so resolution is the lexical `..` collapse. -/
def RustPath.resolve (p : RustPath) : RustPath :=
  { absolute := p.absolute
    components :=
      p.components.foldl (fun acc c => if c = ".." then acc.dropLast else acc ++ [c]) [] }

/-- `protocol.rs` — `FileOpenPayload` (note: no file-identifier field
exists in this payload type). -/
structure FileOpenPayload where
  path : RustPath
  size : Nat
  hash : List Byte
  permissions : Nat
  metadata : List (String × String)
  deriving DecidableEq, Repr

/-- `protocol.rs` — `FileDataPayload`. -/
structure FileDataPayload where
  file_id : Nat
  chunk_index : Nat
  data : List Byte
  chunk_hash : List Byte
  chunk_signature : List Byte
  deriving DecidableEq, Repr

/-- `protocol.rs` — `TransferStatistics`. -/
structure TransferStatistics where
  bytes_transferred : Nat
  duration_ms : Nat
  throughput_bps : Nat
  chunks_count : Nat
  retries_count : Nat
  deriving DecidableEq, Repr

/-- `protocol.rs` — `FileClosePayload`. -/
structure FileClosePayload where
  file_id : Nat
  final_hash : List Byte
  global_signature : List Byte
  statistics : TransferStatistics
  deriving DecidableEq, Repr

/-- The typed payloads the server's session loop dispatches on
(`MessagePayload` in `protocol.rs`; the handshake/heartbeat/policy/stop
variants are not touched by any claim and are omitted from the model). -/
inductive MessagePayload where
  | FileOpen (p : FileOpenPayload)
  | FileData (p : FileDataPayload)
  | FileClose (p : FileClosePayload)
  deriving DecidableEq, Repr

/-- `lsftp-server/src/main.rs` — the `FileSession` record.  The
`blake3::Hasher` is incremental; its state is modelled by the list of
bytes absorbed so far (`update` appends, finalization applies the hash
function to the absorbed bytes), which is the documented contract of
the streaming hasher. -/
structure FileSession where
  file_id : Nat
  file_path : RustPath
  file_size : Nat
  chunks_received : Nat
  total_bytes : Nat
  hasher : List Byte
  file_handle : Option Unit
  deriving DecidableEq, Repr

/-- `FileSession::new` (`main.rs` lines 68-80). -/
def FileSession.new (file_id : Nat) (file_path : RustPath) (file_size : Nat) :
    FileSession :=
  { file_id := file_id
    file_path := file_path
    file_size := file_size
    chunks_received := 0
    total_bytes := 0
    hasher := []
    file_handle := none }

/-- The server's `HashMap<Uuid, FileSession>` modelled as an
association list with unique keys. -/
structure ServerState where
  sessions : List (Nat × FileSession)
  deriving DecidableEq, Repr

/-- `HashMap::get`/`get_mut` lookup. -/
def lookupSession : List (Nat × FileSession) → Nat → Option FileSession
  | [], _ => none
  | (k, v) :: rest, key => if k = key then some v else lookupSession rest key

/-- `HashMap::insert` (replaces an existing binding). -/
def insertSession : List (Nat × FileSession) → Nat → FileSession →
    List (Nat × FileSession)
  | [], key, v => [(key, v)]
  | (k, v0) :: rest, key, v =>
      if k = key then (key, v) :: rest else (k, v0) :: insertSession rest key v

/-- `HashMap::remove`. -/
def removeSession : List (Nat × FileSession) → Nat → List (Nat × FileSession)
  | [], _ => []
  | (k, v) :: rest, key => if k = key then rest else (k, v) :: removeSession rest key

/-- The I/O the handlers perform, in order.  `create_dir_all`, file
open/write/flush and message sends are modelled as effects (their
failures are I/O nondeterminism outside the model); `deleteFile`,
`renameFile` and `auditEvent` are part of the effect vocabulary so that
claims about them are statable — the translated handlers never emit
them, because the source never deletes, renames, or audits. -/
inductive ServerEffect where
  | createDirAll (p : RustPath)
  | openFile (p : RustPath)
  | writeFile (data : List Byte)
  | flushFile
  | deleteFile (p : RustPath)
  | renameFile (src dst : RustPath)
  | auditEvent (e : AuditEvent)
  | sendMessage (mt : MessageType) (payload : MessagePayload)
  deriving DecidableEq, Repr

/-- A handler run: the state after the run, the effects performed
before returning, and the returned `Result`.  On an `Err` return the
state and effect components record exactly what had already happened
before the early `return` (Rust's `?`/`return Err` does not roll
anything back). -/
abbrev HandlerOut := ServerState × List ServerEffect × Except Error Unit

/-- The server CLI fields the handlers consult (`main.rs` `Cli`). -/
structure Cli where
  root_dir : RustPath
  max_file_size : Nat
  verbose : Bool
  deriving DecidableEq, Repr

/-- Effects of the `create_dir_all` call guarded by
`if let Some(parent) = file_path.parent()` (`main.rs` lines 207-210). -/
def parentDirEffects (p : RustPath) : List ServerEffect :=
  match p.parent with
  | some parent => [ServerEffect.createDirAll parent]
  | none => []

/-- `LsftpServer::handle_file_open` (`main.rs` lines 181-239): size
check, `root_dir.join(path)` plus the `starts_with` guard (translated
with the branches swapped relative to the source's `if !cond`), parent
directory creation, `FileSession` insertion under a fresh UUID
(`freshId`), and an acknowledgment echoing the request fields with a
zeroed hash.  Logging (`info!`/`error!`) has no modelled effect. -/
def handle_file_open (cli : Cli) (payload : FileOpenPayload) (freshId : Nat)
    (st : ServerState) : HandlerOut :=
  if payload.size > cli.max_file_size then
    (st, [], .error (Error.File ("File size exceeds maximum allowed size")))
  else
    let file_path := cli.root_dir.join payload.path
    if file_path.startsWith cli.root_dir then
      let file_session := FileSession.new freshId payload.path payload.size
      let ack : FileOpenPayload :=
        { path := payload.path
          size := payload.size
          hash := List.replicate 32 0
          permissions := payload.permissions
          metadata := payload.metadata }
      ({ sessions := insertSession st.sessions freshId file_session },
       parentDirEffects file_path ++
         [ServerEffect.sendMessage .FileOpen (.FileOpen ack)],
       .ok ())
    else
      (st, [], .error (Error.File ("Path traversal attack detected")))

/-- `LsftpServer::handle_file_data` (`main.rs` lines 242-296): look the
session up by `file_id` (error when absent, before any mutation),
lazily open the sink, write the chunk, bump the counters, absorb the
chunk into the streaming hasher, and acknowledge — echoing the
*reported* `chunk_hash` without ever comparing it against anything. -/
def handle_file_data (cli : Cli) (payload : FileDataPayload)
    (st : ServerState) : HandlerOut :=
  match lookupSession st.sessions payload.file_id with
  | none => (st, [], .error (Error.File ("File session not found")))
  | some file_session =>
      let (fs1, openEffects) :=
        match file_session.file_handle with
        | none =>
            ({ file_session with file_handle := some () },
             [ServerEffect.openFile (cli.root_dir.join file_session.file_path)])
        | some _ => (file_session, [])
      let fs2 :=
        { fs1 with
            chunks_received := fs1.chunks_received + 1
            total_bytes := fs1.total_bytes + payload.data.length
            hasher := fs1.hasher ++ payload.data }
      let ack : FileDataPayload :=
        { file_id := payload.file_id
          chunk_index := payload.chunk_index
          data := []
          chunk_hash := payload.chunk_hash
          chunk_signature := [] }
      ({ sessions := insertSession st.sessions payload.file_id fs2 },
       openEffects ++ [ServerEffect.writeFile payload.data,
         ServerEffect.sendMessage .FileData (.FileData ack)],
       .ok ())

/-- Effects of the flush guarded by `if let Some(mut file) =
file_session.file_handle` (`main.rs` lines 312-315). -/
def closeFlushEffects (fs : FileSession) : List ServerEffect :=
  match fs.file_handle with
  | some _ => [ServerEffect.flushFile]
  | none => []

/-- The final acknowledgment `handle_file_close` sends on a hash match
(`main.rs` lines 327-340). -/
def closeAck (payload : FileClosePayload) (fs : FileSession) : ServerEffect :=
  ServerEffect.sendMessage .FileClose (.FileClose
    { file_id := payload.file_id
      final_hash := payload.final_hash
      global_signature := []
      statistics :=
        { bytes_transferred := fs.total_bytes
          duration_ms := 0
          throughput_bps := 0
          chunks_count := fs.chunks_received
          retries_count := 0 } })

/-- `LsftpServer::handle_file_close` (`main.rs` lines 299-345),
parameterized by the hash function `H` that `Hasher::finalize` applies
to the absorbed bytes: remove the session (before any check), flush the
sink if open, finalize the streaming hash and compare it with the
reported `final_hash`; on mismatch return a `File` error (nothing else
happens — no deletion, no audit), on match send the final
acknowledgment (no rename, no audit). -/
def handle_file_close (cli : Cli) (H : List Byte → List Byte)
    (payload : FileClosePayload) (st : ServerState) : HandlerOut :=
  match lookupSession st.sessions payload.file_id with
  | none => (st, [], .error (Error.File ("File session not found")))
  | some file_session =>
      let st2 : ServerState :=
        { sessions := removeSession st.sessions payload.file_id }
      let flushEffects := closeFlushEffects file_session
      let final_hash := H file_session.hasher
      if final_hash ≠ payload.final_hash then
        (st2, flushEffects, .error (Error.File ("File integrity check failed")))
      else
        (st2, flushEffects ++ [closeAck payload file_session], .ok ())

/-! ### Concrete inputs used by the closed theorems -/

/-- Root directory `/var/lsftp` (the server's CLI default). -/
def exRoot : RustPath := { absolute := true, components := ["var", "lsftp"] }

/-- The traversal request path `../../etc/passwd`. -/
def exTraversalPath : RustPath :=
  { absolute := false, components := ["..", "..", "etc", "passwd"] }

/-- Server CLI with the default root and 1 GiB size limit. -/
def exCli : Cli :=
  { root_dir := exRoot, max_file_size := 1073741824, verbose := false }

/-- A `FileOpen` request carrying the traversal path. -/
def exOpenPayload : FileOpenPayload :=
  { path := exTraversalPath
    size := 4
    hash := List.replicate 32 0
    permissions := 420
    metadata := [] }

/-- A server with no open file sessions. -/
def exEmptyState : ServerState := { sessions := [] }

/-- C1 (exhibiting the bug): for the request path `../../etc/passwd`
against root `/var/lsftp` — which resolves to `/etc/passwd`, outside
the root — `handle_file_open` does *not* reject: the `starts_with`
guard passes because `Path::starts_with` performs no `..` resolution,
so the handler returns `Ok` and creates a `FileSession` for the
traversal path. -/
theorem handle_file_open_accepts_traversal :
    RustPath.resolve (exCli.root_dir.join exOpenPayload.path) =
        { absolute := true, components := ["etc", "passwd"] } ∧
    RustPath.startsWith (RustPath.resolve (exCli.root_dir.join exOpenPayload.path))
        exCli.root_dir = false ∧
    (handle_file_open exCli exOpenPayload 7 exEmptyState).2.2 = .ok () ∧
    lookupSession (handle_file_open exCli exOpenPayload 7 exEmptyState).1.sessions 7 =
      some (FileSession.new 7 exOpenPayload.path 4) := by
  refine ⟨by decide, by decide, rfl, rfl⟩

/-- An open file session stored under id 7, no chunk received yet. -/
def exSession7 : FileSession :=
  FileSession.new 7 { absolute := false, components := ["up.bin"] } 6

/-- Server state holding only `exSession7`. -/
def exStateWith7 : ServerState := { sessions := [(7, exSession7)] }

/-- A chunk for session 7 whose reported hash is 32 bytes of `1`. -/
def exDataPayload1 : FileDataPayload :=
  { file_id := 7
    chunk_index := 0
    data := [1, 2, 3]
    chunk_hash := List.replicate 32 1
    chunk_signature := [] }

/-- The same chunk with a different reported hash (32 bytes of `2`). -/
def exDataPayload2 : FileDataPayload :=
  { exDataPayload1 with chunk_hash := List.replicate 32 2 }

/-- C3 (exhibiting the bug): `handle_file_data` accepts the same chunk
under two *different* reported `chunk_hash` values — both runs return
`Ok` and absorb the data into the hasher — so the server performs no
chunk-hash verification at all (at most one of the two reported values
can match the hasher state). -/
theorem handle_file_data_ignores_chunk_hash :
    exDataPayload1.data = exDataPayload2.data ∧
    exDataPayload1.chunk_hash ≠ exDataPayload2.chunk_hash ∧
    (handle_file_data exCli exDataPayload1 exStateWith7).2.2 = .ok () ∧
    (handle_file_data exCli exDataPayload2 exStateWith7).2.2 = .ok () ∧
    (lookupSession (handle_file_data exCli exDataPayload1 exStateWith7).1.sessions 7).map
        FileSession.hasher = some [1, 2, 3] := by
  refine ⟨by decide, by decide, rfl, rfl, rfl⟩

/-- A session that has absorbed the bytes `[1, 2, 3]` with an open sink. -/
def exCloseSession : FileSession :=
  { file_id := 9
    file_path := { absolute := false, components := ["f.bin"] }
    file_size := 3
    chunks_received := 1
    total_bytes := 3
    hasher := [1, 2, 3]
    file_handle := some () }

/-- Server state holding only `exCloseSession` under id 9. -/
def exStateClose : ServerState := { sessions := [(9, exCloseSession)] }

/-- A concrete stand-in hash function for the closed theorems: the
one-element list holding the input length. -/
def lenHash : List Byte → List Byte := fun l => [l.length]

/-- All-zero transfer statistics (the payload field the handler never
reads). -/
def zeroStats : TransferStatistics :=
  { bytes_transferred := 0
    duration_ms := 0
    throughput_bps := 0
    chunks_count := 0
    retries_count := 0 }

/-- A `FileClose` for session 9 whose reported final hash mismatches. -/
def exClosePayloadBad : FileClosePayload :=
  { file_id := 9
    final_hash := [99]
    global_signature := []
    statistics := zeroStats }

/-- C6 counterexample: on a final-hash mismatch `handle_file_close`
returns the `File` error, but its complete effect list is just the
flush — it contains no `deleteFile` and no `auditEvent` — refuting the
claim that the partial file is deleted and a failure audit event
emitted. -/
theorem handle_file_close_mismatch_no_delete_no_audit :
    lenHash exCloseSession.hasher ≠ exClosePayloadBad.final_hash ∧
    handle_file_close exCli lenHash exClosePayloadBad exStateClose =
      ({ sessions := [] }, [ServerEffect.flushFile],
       .error (Error.File ("File integrity check failed"))) := by
  refine ⟨by decide, rfl⟩

/-- C6 as amended: for a `FileClose` on an existing session,
`handle_file_close` removes the session and flushes the sink (if open)
in both branches; on a final-hash mismatch it returns a `File` error
and on a match it sends the final acknowledgment with the session's
byte and chunk counters (duration reported as 0) — and in neither
branch does it delete a file, rename a file, or emit an audit event,
as the fully explicit effect list shows. -/
theorem handle_file_close_behavior (cli : Cli) (H : List Byte → List Byte)
    (payload : FileClosePayload) (st : ServerState) (fs : FileSession)
    (h : lookupSession st.sessions payload.file_id = some fs) :
    handle_file_close cli H payload st =
      ({ sessions := removeSession st.sessions payload.file_id },
       closeFlushEffects fs ++
         (if H fs.hasher = payload.final_hash then [closeAck payload fs] else []),
       if H fs.hasher = payload.final_hash then .ok ()
       else .error (Error.File ("File integrity check failed"))) := by
  unfold handle_file_close
  rw [h]
  by_cases hm : H fs.hasher = payload.final_hash
  · simp [hm]
  · simp [hm]

/-- Witness for C6's amended theorem: session 9 with matching final
hash (`lenHash [1,2,3] = [3]`). -/
theorem handle_file_close_behavior_witness :
    lookupSession exStateClose.sessions 9 = some exCloseSession ∧
    handle_file_close exCli lenHash
        { file_id := 9, final_hash := [3], global_signature := [],
          statistics := zeroStats } exStateClose =
      ({ sessions := removeSession exStateClose.sessions 9 },
       closeFlushEffects exCloseSession ++
         (if lenHash exCloseSession.hasher = [3]
          then [closeAck { file_id := 9, final_hash := [3], global_signature := [],
                           statistics := zeroStats } exCloseSession]
          else []),
       if lenHash exCloseSession.hasher = [3] then .ok ()
       else .error (Error.File ("File integrity check failed"))) :=
  ⟨by decide,
   handle_file_close_behavior exCli lenHash _ exStateClose exCloseSession (by decide)⟩

/-- C10: (a) when the size and path guards pass, `handle_file_open`
stores the new `FileSession` under the fresh UUID `freshId` and sends
an acknowledgment built only from the request's fields (path, size,
permissions, metadata, zeroed hash — `FileOpenPayload` has no
file-identifier field, so the ack carries none, whatever `freshId`
is); and (b) a `FileData` whose `file_id` is not a key of the session
table makes `handle_file_data` return a `File` error with the state
unchanged and no effects performed. -/
theorem file_open_ack_and_unknown_file_id (cli : Cli) (op : FileOpenPayload)
    (freshId : Nat) (st : ServerState) (dp : FileDataPayload) (st2 : ServerState)
    (hsize : op.size ≤ cli.max_file_size)
    (hguard : RustPath.startsWith (cli.root_dir.join op.path) cli.root_dir = true)
    (hmiss : lookupSession st2.sessions dp.file_id = none) :
    handle_file_open cli op freshId st =
      ({ sessions :=
           insertSession st.sessions freshId (FileSession.new freshId op.path op.size) },
       parentDirEffects (cli.root_dir.join op.path) ++
         [ServerEffect.sendMessage .FileOpen (.FileOpen
            { path := op.path, size := op.size, hash := List.replicate 32 0,
              permissions := op.permissions, metadata := op.metadata })],
       .ok ())
    ∧ handle_file_data cli dp st2 =
        (st2, [], .error (Error.File ("File session not found"))) := by
  constructor
  · unfold handle_file_open
    rw [if_neg (by omega)]
    simp [hguard]
  · unfold handle_file_data
    rw [hmiss]

/-- Witness for C10: a benign relative path under the default root and
a lookup of the unknown id 42 in the empty session table. -/
theorem file_open_ack_and_unknown_file_id_witness :
    (4 : Nat) ≤ exCli.max_file_size ∧
    RustPath.startsWith
        (exCli.root_dir.join { absolute := false, components := ["docs", "report.txt"] })
        exCli.root_dir = true ∧
    lookupSession exEmptyState.sessions 42 = none ∧
    (handle_file_open exCli
        { path := { absolute := false, components := ["docs", "report.txt"] },
          size := 4, hash := List.replicate 32 0, permissions := 420, metadata := [] }
        7 exEmptyState =
      ({ sessions :=
           insertSession exEmptyState.sessions 7
             (FileSession.new 7 { absolute := false, components := ["docs", "report.txt"] } 4) },
       parentDirEffects
           (exCli.root_dir.join { absolute := false, components := ["docs", "report.txt"] }) ++
         [ServerEffect.sendMessage .FileOpen (.FileOpen
            { path := { absolute := false, components := ["docs", "report.txt"] },
              size := 4, hash := List.replicate 32 0, permissions := 420, metadata := [] })],
       .ok ())
    ∧ handle_file_data exCli
        { file_id := 42, chunk_index := 0, data := [5], chunk_hash := List.replicate 32 0,
          chunk_signature := [] } exEmptyState =
        (exEmptyState, [], .error (Error.File ("File session not found")))) :=
  ⟨by decide, by decide, by decide,
   file_open_ack_and_unknown_file_id exCli _ 7 exEmptyState _ exEmptyState
     (by decide) (by decide) (by decide)⟩

/-! ## Client upload (`lsftp-client/src/client.rs`)

`upload_file` reads the file in `chunk_size` slices, keeps one
incremental `blake3::Hasher` across the whole loop, calls
`hasher.update(chunk)` and then snapshots `hasher.finalize()` into the
chunk's `chunk_hash` (blake3's `finalize` borrows the state, so the
snapshot is the hash of everything absorbed so far).  The hasher state
is modelled by the absorbed byte list and finalization by an abstract
hash function `H` applied to it. -/

/-- The file contents split as the read loop slices them: `take
chunk_size` repeatedly; a zero `chunk_size` produces no chunks (a read
into an empty buffer returns 0 bytes and the loop breaks at once). -/
def chunkify (content : List Byte) (chunkSize : Nat) : List (List Byte) :=
  if h : chunkSize = 0 ∨ content = [] then []
  else content.take chunkSize :: chunkify (content.drop chunkSize) chunkSize
termination_by content.length
decreasing_by
  simp only [List.length_drop]
  push_neg at h
  have h1 : 0 < content.length := List.length_pos.mpr h.2
  have h2 : chunkSize ≠ 0 := h.1
  omega

/-- The upload loop of `LsftpClient::upload_file` (`client.rs` lines
150-204): while bytes remain, absorb the next chunk into the hasher and
emit a `FileData` payload whose `chunk_hash` is the hasher snapshot
(`H` of all bytes absorbed so far) and whose index is the running chunk
counter.  Returns the payload list and the final hasher state.  The
per-chunk send/retry logic only re-sends the identical message and is
not part of the produced values. -/
def uploadLoop (H : List Byte → List Byte) (fileId chunkSize : Nat)
    (rest absorbed : List Byte) (chunks_count : Nat) :
    List FileDataPayload × List Byte :=
  if h : chunkSize = 0 ∨ rest = [] then ([], absorbed)
  else
    let chunk := rest.take chunkSize
    let absorbed2 := absorbed ++ chunk
    let tail := uploadLoop H fileId chunkSize (rest.drop chunkSize) absorbed2
      (chunks_count + 1)
    ({ file_id := fileId
       chunk_index := chunks_count
       data := chunk
       chunk_hash := H absorbed2
       chunk_signature := [] } :: tail.1,
     tail.2)
termination_by rest.length
decreasing_by
  simp only [List.length_drop]
  push_neg at h
  have h1 : 0 < rest.length := List.length_pos.mpr h.2
  have h2 : chunkSize ≠ 0 := h.1
  omega

/-- `LsftpClient::upload_file` (`client.rs` lines 113-247): run the
upload loop from an empty hasher, then close with `final_hash =
H(all absorbed bytes)`.  Wall-clock statistics (duration, throughput)
are runtime inputs outside the model and reported as 0. -/
def upload_file (H : List Byte → List Byte) (fileId : Nat)
    (content : List Byte) (chunkSize : Nat) :
    List FileDataPayload × FileClosePayload :=
  let run := uploadLoop H fileId chunkSize content [] 0
  (run.1,
   { file_id := fileId
     final_hash := H run.2
     global_signature := []
     statistics :=
       { bytes_transferred := run.2.length
         duration_ms := 0
         throughput_bps := 0
         chunks_count := run.1.length
         retries_count := 0 } })

lemma chunkify_take_join (chunkSize : Nat) :
    ∀ (n : Nat) (content : List Byte),
      ((chunkify content chunkSize).take n).flatten = content.take (n * chunkSize) := by
  intro n
  induction n with
  | zero => intro content; simp
  | succ n ih =>
      intro content
      by_cases h : chunkSize = 0 ∨ content = []
      · rw [chunkify]
        rcases h with h0 | h0 <;> simp [h0]
      · rw [chunkify, dif_neg h]
        rw [List.take_succ_cons, List.flatten_cons, ih]
        rw [Nat.succ_mul, Nat.add_comm, List.take_add]

lemma uploadLoop_get?_chunk_hash (H : List Byte → List Byte)
    (fileId chunkSize : Nat) :
    ∀ (i : Nat) (rest absorbed : List Byte) (chunks_count : Nat)
      (p : FileDataPayload),
      (uploadLoop H fileId chunkSize rest absorbed chunks_count).1.get? i = some p →
      p.chunk_hash = H (absorbed ++ ((chunkify rest chunkSize).take (i + 1)).flatten) := by
  intro i
  induction i with
  | zero =>
      intro rest absorbed chunks_count p hp
      rw [uploadLoop.eq_def] at hp
      by_cases h : chunkSize = 0 ∨ rest = []
      · simp [dif_pos h] at hp
      · rw [chunkify, dif_neg h]
        simp only [dif_neg h, List.get?_cons_zero, Option.some.injEq] at hp
        subst hp
        simp
  | succ i ih =>
      intro rest absorbed chunks_count p hp
      rw [uploadLoop.eq_def] at hp
      by_cases h : chunkSize = 0 ∨ rest = []
      · simp [dif_pos h] at hp
      · rw [chunkify, dif_neg h]
        simp only [dif_neg h, List.get?_cons_succ] at hp
        have htail := ih (rest.drop chunkSize) (absorbed ++ rest.take chunkSize)
          (chunks_count + 1) p hp
        rw [htail]
        simp [List.append_assoc]

/-- C7: for every file content, chunk size and chunk index `i`, the
`chunk_hash` carried in the `i`-th `FileData` payload produced by
`upload_file` equals an independent rehash of the cumulative file bytes
— the first `(i+1) * chunk_size` bytes of the file, i.e. chunks 0
through `i` concatenated. -/
theorem upload_chunk_hash_is_cumulative_rehash (H : List Byte → List Byte)
    (fileId : Nat) (content : List Byte) (chunkSize : Nat) (i : Nat)
    (hi : i < (upload_file H fileId content chunkSize).1.length) :
    ((upload_file H fileId content chunkSize).1.get ⟨i, hi⟩).chunk_hash =
      H (content.take ((i + 1) * chunkSize)) := by
  have hget : (uploadLoop H fileId chunkSize content [] 0).1.get? i =
      some ((upload_file H fileId content chunkSize).1.get ⟨i, hi⟩) := by
    rw [show (uploadLoop H fileId chunkSize content [] 0).1 =
        (upload_file H fileId content chunkSize).1 from rfl]
    exact List.get?_eq_get hi
  have hmain := uploadLoop_get?_chunk_hash H fileId chunkSize i content [] 0 _ hget
  rw [chunkify_take_join] at hmain
  simpa using hmain

/-- Witness for C7: content `[1,2,3,4,5]` in chunks of 2; the second
payload (index 1) carries the hash of the first 4 bytes. -/
theorem upload_chunk_hash_is_cumulative_rehash_witness :
    ∃ hlen : 1 < (upload_file lenHash 7 [1, 2, 3, 4, 5] 2).1.length,
      ((upload_file lenHash 7 [1, 2, 3, 4, 5] 2).1.get ⟨1, hlen⟩).chunk_hash =
        lenHash ([1, 2, 3, 4, 5].take ((1 + 1) * 2)) := by
  have hlen : 1 < (upload_file lenHash 7 [1, 2, 3, 4, 5] 2).1.length := by
    simp [upload_file, uploadLoop]
  exact ⟨hlen, upload_chunk_hash_is_cumulative_rehash lenHash 7 _ 2 1 hlen⟩

end LSFTP
